import Mathlib

/-!
Shallow embedding of the eligibility decision engine of the
college-course-registration-automation-system repository, with theorems
checking the natural-language specification against the code.

The embedding follows the Python sources:
  * `backend/business_rules.py`
  * `backend/agents/eligibility_agent.py`
  * `backend/agents/course_selector.py`
  * `backend/services/retriever.py` and `backend/services/vector_store.py`
Python ints are modelled as `Int` (counts as `Nat`), floats (cgpa, embedding
coordinates, scores) as `ℚ`, dicts-with-fixed-keys as structures, and
`dict.get(k, default)` maps as total functions or association lists.
-/

namespace CollegeReg

/-- Grade points mapping, from `business_rules.GRADE_POINTS`. -/
def GRADE_POINTS : List (String × Nat) :=
  [("A+", 10), ("A", 9), ("B+", 8), ("B", 7), ("C", 6), ("D", 5),
   ("E", 0), ("F", 0), ("I", 0), ("Z", 0)]

/-- `business_rules.MAX_NOT_PROMOTED_COUNT`. -/
def MAX_NOT_PROMOTED_COUNT : Nat := 3

/-- `business_rules.MIN_CGPA_FOR_ADVANCE` (= 7.5). -/
def MIN_CGPA_FOR_ADVANCE : ℚ := mkRat 15 2

/-- `business_rules.ADVANCE_ELIGIBLE_SEMESTERS`. -/
def ADVANCE_ELIGIBLE_SEMESTERS : List Int := [5, 6]

/-- `business_rules.PromotionRequirement` dataclass. -/
structure PromotionRequirement where
  semester : Int
  min_earned_credits : Int
  special_conditions : String
  deriving Repr, DecidableEq

/-- `business_rules.PROMOTION_REQUIREMENTS`, keyed by semester. -/
def PROMOTION_REQUIREMENTS : List (Int × PromotionRequirement) :=
  [(2, ⟨2, 16, "Minimum 16 credits"⟩),
   (4, ⟨4, 60, "Including at least 36 credits from first two semesters"⟩),
   (6, ⟨6, 108, "Including at least 80 credits from first four semesters"⟩)]

/-- `business_rules.check_promotion_eligibility`.  `semester_wise_credits`
is the Python dict `semester -> earned credits`, modelled as a total
function (`dict.get(i, 0)` defaults to 0). -/
def check_promotion_eligibility (current_semester : Int)
    (total_earned_credits : Int) (semester_wise_credits : Int → Int) :
    Bool × String :=
  match PROMOTION_REQUIREMENTS.lookup current_semester with
  | none => (true, "Promotion check only at even semesters")
  | some req =>
    let m := req.min_earned_credits
    if total_earned_credits < m then
      (false, s!"Insufficient credits: {total_earned_credits}/{m}")
    else if current_semester = 4 then
      let first_two_sem_credits := semester_wise_credits 1 + semester_wise_credits 2
      if first_two_sem_credits < 36 then
        (false, s!"Need 36 credits from first two semesters. Current: {first_two_sem_credits}")
      else
        (true, s!"Promotion eligible: {total_earned_credits}/{m} credits")
    else if current_semester = 6 then
      let first_four_sem_credits :=
        semester_wise_credits 1 + semester_wise_credits 2 +
        semester_wise_credits 3 + semester_wise_credits 4
      if first_four_sem_credits < 80 then
        (false, s!"Need 80 credits from first four semesters. Current: {first_four_sem_credits}")
      else
        (true, s!"Promotion eligible: {total_earned_credits}/{m} credits")
    else
      (true, s!"Promotion eligible: {total_earned_credits}/{m} credits")

/-- `business_rules.check_name_removal_risk`; returns
`(risk_level, action, message)`. -/
def check_name_removal_risk (not_promoted_count : Nat) :
    String × String × String :=
  if not_promoted_count ≥ MAX_NOT_PROMOTED_COUNT then
    ("CRITICAL", "NAME_REMOVAL",
     s!"⛔ Name will be removed! Not promoted {not_promoted_count} times (max: {MAX_NOT_PROMOTED_COUNT})")
  else if not_promoted_count = 2 then
    ("HIGH", "WARNING",
     "⚠️ WARNING: Not promoted 2 times. One more failure → Name removal!")
  else if not_promoted_count = 1 then
    ("MEDIUM", "CAUTION", "⚠️ CAUTION: Not promoted once. Be careful!")
  else
    ("LOW", "SAFE", "Good standing")

/-- `business_rules.check_advance_eligibility`. -/
def check_advance_eligibility (current_semester : Int) (cgpa : ℚ)
    (has_backlogs : Bool) : Bool × String :=
  if current_semester ∉ ADVANCE_ELIGIBLE_SEMESTERS then
    (false, "Advancement only for III year students (Sem 5/6)")
  else if cgpa < MIN_CGPA_FOR_ADVANCE then
    (false, s!"CGPA must be ≥ {MIN_CGPA_FOR_ADVANCE}. Current: {cgpa}")
  else if has_backlogs then
    (false, "Cannot advance with pending backlogs")
  else
    (true, s!"✅ Eligible for advancement (CGPA: {cgpa}, No backlogs)")

/-- `business_rules.calculate_cgpa`'s accumulation loop: fold over
`(grade, credits)` pairs, adding `GRADE_POINTS[grade] * credits` to the
weighted sum and `credits` to the credit total only when the grade is a
key of `GRADE_POINTS`. -/
def cgpaSums (grade_credit_list : List (String × Int)) : Int × Int :=
  grade_credit_list.foldl
    (fun acc gc =>
      match GRADE_POINTS.lookup gc.1 with
      | some p => (acc.1 + (p : Int) * gc.2, acc.2 + gc.2)
      | none => acc)
    (0, 0)

/-- Two-decimal rounding, a rational model of Python's `round(x, 2)`. -/
def round2 (q : ℚ) : ℚ := (round (q * 100) : ℚ) / 100

/-- `business_rules.calculate_cgpa`. -/
def calculate_cgpa (grade_credit_list : List (String × Int)) : ℚ :=
  let s := cgpaSums grade_credit_list
  if s.2 = 0 then 0 else round2 ((s.1 : ℚ) / (s.2 : ℚ))

/-- A course-attempt row (`models.AcademicRecord` / the record dicts fed to
`business_rules.get_backlog_courses`). -/
structure AcademicRecord where
  course_id : Nat
  semester : Int
  attempt_number : Nat
  grade : String
  status : String
  attendance_fulfilled : Bool
  deriving Repr, DecidableEq

/-- A catalog row (`models.Course`). -/
structure Course where
  id : Nat
  course_code : String
  course_name : String
  credits : Int
  semester : Int
  is_theory : Bool
  is_lab : Bool
  is_elective : Bool
  deriving Repr, DecidableEq

/-- A student row (`models.Student`), restricted to the fields the
eligibility agent reads. -/
structure Student where
  id : Nat
  current_semester : Int
  cgpa : ℚ
  total_earned_credits : Int
  not_promoted_count : Nat
  deriving Repr, DecidableEq

/-- First-occurrence deduplication with a `seen` accumulator; models the
key order of a Python dict built by insertion (`course_attempts` in both
backlog extractors). -/
def dedupFirstAux [DecidableEq α] (seen : List α) : List α → List α
  | [] => []
  | x :: xs =>
    if x ∈ seen then dedupFirstAux seen xs
    else x :: dedupFirstAux (x :: seen) xs

/-- The distinct elements of a list in order of first occurrence. -/
def dedupFirst [DecidableEq α] (l : List α) : List α := dedupFirstAux [] l

/-- Python's `max(l, key=f)` on a possibly-empty list: `none` on `[]`,
otherwise the first element whose key is maximal (later elements replace
the current best only on a strictly greater key). -/
def pyMaxBy (f : α → Nat) : List α → Option α
  | [] => none
  | x :: xs => some (xs.foldl (fun best r => if f r > f best then r else best) x)

/-- Output rows of `business_rules.get_backlog_courses`. -/
structure BacklogDict where
  course_id : Nat
  grade : String
  attempt_number : Nat
  attendance_fulfilled : Bool
  deriving Repr, DecidableEq

/-- `business_rules.get_backlog_courses`: group records by `course_id`
(dict insertion order), take the attempt with maximal `attempt_number` in
each group, and keep the course when that latest attempt has
`grade in ['E', 'F'] or status == 'FAILED'`. -/
def get_backlog_courses (academic_records : List AcademicRecord) :
    List BacklogDict :=
  (dedupFirst (academic_records.map (·.course_id))).filterMap fun cid =>
    match pyMaxBy (·.attempt_number)
        (academic_records.filter (fun r => r.course_id == cid)) with
    | none => none
    | some latest =>
      if latest.grade = "E" ∨ latest.grade = "F" ∨ latest.status = "FAILED" then
        some ⟨cid, latest.grade, latest.attempt_number, latest.attendance_fulfilled⟩
      else none

/-- Output rows of `EligibilityAgent._get_backlogs`. -/
structure BacklogCourse where
  course_id : Nat
  course_code : String
  course_name : String
  credits : Int
  semester : Int
  attempt_number : Nat
  attendance_fulfilled : Bool
  deriving Repr, DecidableEq

/-- `EligibilityAgent._get_backlogs`.  `courseById` models
`db.query(Course).filter(Course.id == course_id).first()`.  A course is
kept when its latest attempt has `grade in ["E", "F"] and
status != "PASSED"` and the course id resolves in the catalog. -/
def agentGetBacklogs (records : List AcademicRecord)
    (courseById : Nat → Option Course) : List BacklogCourse :=
  (dedupFirst (records.map (·.course_id))).filterMap fun cid =>
    match pyMaxBy (·.attempt_number)
        (records.filter (fun r => r.course_id == cid)) with
    | none => none
    | some latest =>
      if (latest.grade = "E" ∨ latest.grade = "F") ∧ latest.status ≠ "PASSED" then
        match courseById cid with
        | some course =>
          some ⟨course.id, course.course_code, course.course_name,
                course.credits, course.semester, latest.attempt_number,
                latest.attendance_fulfilled⟩
        | none => none
      else none

/-- The `sem_credits` dict built in `EligibilityAgent.analyze_eligibility`:
for each semester, the credits of catalog-resolvable courses over records
with `status == "PASSED"` in that semester (`dict.get` defaults to 0). -/
def passedSemesterCredits (records : List AcademicRecord)
    (courseById : Nat → Option Course) : Int → Int := fun s =>
  ((records.filter (fun r => r.status == "PASSED" && r.semester == s)).filterMap
    (fun r => (courseById r.course_id).map (·.credits))).sum

/-- The verdict dict returned by `EligibilityAgent.analyze_eligibility`.
The `recommendations` entry is produced by the external RAG/LLM call
(`_get_rag_recommendations`) and is outside the embedded engine, so it is
omitted here. -/
structure EligibilityResult where
  student_id : Nat
  current_semester : Int
  cgpa : ℚ
  total_earned_credits : Int
  not_promoted_count : Nat
  status : String
  can_register : Bool
  can_advance : Bool
  has_backlogs : Bool
  backlog_count : Nat
  allowed_registration_types : List String
  warnings : List String
  risk_level : String
  backlog_courses : List BacklogCourse
  promotion_status : Option (Bool × String)
  deriving Repr, DecidableEq

/-- `EligibilityAgent.analyze_eligibility` (the pure decision part; the
student row and its records are supplied by the caller, and the catalog
lookup is `courseById`). -/
def analyze_eligibility (student : Student) (records : List AcademicRecord)
    (courseById : Nat → Option Course) : EligibilityResult :=
  let sem_credits := passedSemesterCredits records courseById
  let promo := check_promotion_eligibility student.current_semester
    student.total_earned_credits sem_credits
  let risk := check_name_removal_risk student.not_promoted_count
  let risk_level := risk.1
  let risk_msg := risk.2.2
  let backlogs := agentGetBacklogs records courseById
  let has_backlogs : Bool := !backlogs.isEmpty
  let adv := check_advance_eligibility student.current_semester student.cgpa
    has_backlogs
  let can_advance := adv.1
  let allowed_types :=
    (if risk_level ≠ "CRITICAL" then ["CURRENT"] else []) ++
    (if has_backlogs then ["BACKLOG"] else []) ++
    (if can_advance then ["ADVANCE"] else [])
  let nb := backlogs.length
  let warnings :=
    (if risk_level ≠ "LOW" then [risk_msg] else []) ++
    (if has_backlogs then [s!"You have {nb} backlog course(s)"] else [])
  { student_id := student.id
    current_semester := student.current_semester
    cgpa := student.cgpa
    total_earned_credits := student.total_earned_credits
    not_promoted_count := student.not_promoted_count
    status := if risk_level = "CRITICAL" then "BLOCKED" else "ELIGIBLE"
    can_register := risk_level != "CRITICAL"
    can_advance := can_advance
    has_backlogs := has_backlogs
    backlog_count := nb
    allowed_registration_types := allowed_types
    warnings := warnings
    risk_level := risk_level
    backlog_courses := backlogs
    promotion_status :=
      if student.current_semester % 2 = 0 then some promo else none }

/-- The dict produced by `CourseSelectorAgent._course_to_dict`. -/
structure CourseDict where
  course_id : Nat
  course_code : String
  course_name : String
  credits : Int
  semester : Int
  is_theory : Bool
  is_lab : Bool
  is_elective : Bool
  deriving Repr, DecidableEq

/-- `CourseSelectorAgent._course_to_dict`. -/
def course_to_dict (course : Course) : CourseDict :=
  ⟨course.id, course.course_code, course.course_name, course.credits,
   course.semester, course.is_theory, course.is_lab, course.is_elective⟩

/-- `CourseSelectorAgent._get_courses_by_semester`: the catalog models the
`courses` table, so the query is a filter on the semester column. -/
def coursesBySemester (catalog : List Course) (semester : Int) : List Course :=
  catalog.filter (fun c => c.semester == semester)

/-- `CourseSelectorAgent._generate_message`. -/
def generateMessage (risk : String) (backlog_count : Nat) : String :=
  if risk = "CRITICAL" then "CRITICAL ACADEMIC STANDING. Contact Advisor."
  else if backlog_count > 0 then
    s!"You have {backlog_count} backlog courses to clear."
  else "You are on track. Proceed with registration."

/-- The `summary` sub-dict of a course recommendation. -/
structure RecommendationSummary where
  risk_level : String
  can_advance : Bool
  message : String
  deriving Repr, DecidableEq

/-- The dict returned by `CourseSelectorAgent.recommend_courses`; the
`courses` sub-dict is flattened into the three bucket fields. -/
structure CourseRecommendation where
  student_id : Nat
  semester : Int
  courses_current : List CourseDict
  courses_backlogs : List BacklogCourse
  courses_advance : List CourseDict
  total_credits : Int
  summary : RecommendationSummary
  deriving Repr, DecidableEq

/-- `CourseSelectorAgent.recommend_courses`. -/
def recommend_courses (student_id : Nat) (eligibility : EligibilityResult)
    (catalog : List Course) : CourseRecommendation :=
  let current_sem := eligibility.current_semester
  let can_advance := eligibility.can_advance
  let risk_level := eligibility.risk_level
  let backlog_list := eligibility.backlog_courses
  let current_courses := coursesBySemester catalog current_sem
  let backlog_courses := backlog_list
  let advance_courses :=
    if can_advance then coursesBySemester catalog (current_sem + 1) else []
  let current_courses :=
    if risk_level = "CRITICAL" then [] else current_courses
  { student_id := student_id
    semester := current_sem
    courses_current := current_courses.map course_to_dict
    courses_backlogs := backlog_courses
    courses_advance := advance_courses.map course_to_dict
    total_credits := (current_courses.map (·.credits)).sum
    summary := ⟨risk_level, can_advance,
                generateMessage risk_level backlog_courses.length⟩ }

/-- A corpus entry of the vector store: `documents[i]`, `metadatas[i]` and
the `i`-th index vector, which `VectorStore.add_documents` always extends
in lockstep, modelled as one row. -/
structure PolicyChunk where
  text : String
  metadata : List (String × String)
  embedding : List ℚ
  deriving Repr, DecidableEq

/-- A hit returned by `VectorStore.similarity_search`
(`{"text": ..., "metadata": ..., "score": ...}`). -/
structure SearchResult where
  text : String
  metadata : List (String × String)
  score : ℚ
  deriving Repr, DecidableEq

/-- Squared L2 distance, the score of a FAISS `IndexFlatL2` search. -/
def l2sq (a b : List ℚ) : ℚ := ((a.zip b).map (fun p => (p.1 - p.2) ^ 2)).sum

/-- Stable insertion of a result into a score-ascending list (equal scores
keep their original relative order, matching the index-ascending tie order
of a flat index scan). -/
def insertByScore (x : SearchResult) : List SearchResult → List SearchResult
  | [] => [x]
  | y :: ys => if x.score < y.score then x :: y :: ys else y :: insertByScore x ys

/-- Score-ascending stable sort of search results. -/
def sortByScore : List SearchResult → List SearchResult
  | [] => []
  | x :: xs => insertByScore x (sortByScore xs)

/-- `VectorStore.similarity_search`: empty store (no index or
`ntotal == 0`) returns `[]`; otherwise `k` is clamped to the corpus size
and the `k` nearest chunks by squared L2 distance are returned in
ascending-distance order. -/
def similarity_search (corpus : List PolicyChunk) (query_embedding : List ℚ)
    (k : Nat) : List SearchResult :=
  if corpus.isEmpty then []
  else
    let k := min k corpus.length
    (sortByScore (corpus.map
      (fun c => ⟨c.text, c.metadata, l2sq query_embedding c.embedding⟩))).take k

/-- `metadata.get('source', 'AMU Ordinances')` in
`Retriever.retrieve_context`. -/
def getSource (metadata : List (String × String)) : String :=
  ((metadata.lookup "source").getD "AMU Ordinances")

/-- One entry of `context_parts`: `f"[Source {i}]\n{text}"`. -/
def sourcePart (i : Nat) (r : SearchResult) : String :=
  let t := r.text
  s!"[Source {i}]\n{t}"

/-- The dict returned by `Retriever.retrieve_context`; the `query` key is
present only on the non-empty branch, modelled as an `Option`. -/
structure RetrievedContext where
  context : String
  sources : List String
  chunks : List SearchResult
  query : Option String
  deriving Repr, DecidableEq

/-- `Retriever.retrieve_context`.  The query's embedding vector
(`embedding_service.embed_text(query)`, an external service) is passed in
as `query_embedding`. -/
def retrieve_context (corpus : List PolicyChunk) (query : String)
    (query_embedding : List ℚ) (top_k : Nat := 3) : RetrievedContext :=
  let results := similarity_search corpus query_embedding top_k
  if results.isEmpty then
    { context := "No relevant ordinance information found."
      sources := []
      chunks := []
      query := none }
  else
    let context_parts := results.enum.map (fun p => sourcePart (p.1 + 1) p.2)
    let sources := results.foldl
      (fun acc r =>
        let source_info := getSource r.metadata
        if source_info ∈ acc then acc else acc ++ [source_info])
      []
    let chunks := results.map (fun r => (⟨r.text, r.metadata, r.score⟩ : SearchResult))
    { context := String.intercalate "\n\n" context_parts
      sources := sources
      chunks := chunks
      query := some query }

/-! ### Helper lemmas about the list utilities -/

theorem mem_dedupFirstAux [DecidableEq α] (l : List α) :
    ∀ (seen : List α) (a : α), a ∈ dedupFirstAux seen l ↔ a ∈ l ∧ a ∉ seen := by
  induction l with
  | nil => intro seen a; simp [dedupFirstAux]
  | cons x xs ih =>
    intro seen a
    rw [dedupFirstAux]
    by_cases hx : x ∈ seen
    · rw [if_pos hx, ih]
      constructor
      · rintro ⟨hmem, hs⟩; exact ⟨List.mem_cons_of_mem _ hmem, hs⟩
      · rintro ⟨hmem, hs⟩
        rcases List.mem_cons.1 hmem with rfl | hmem
        · exact absurd hx hs
        · exact ⟨hmem, hs⟩
    · rw [if_neg hx]
      constructor
      · intro hmem
        rcases List.mem_cons.1 hmem with rfl | hmem
        · exact ⟨List.mem_cons_self _ _, hx⟩
        · obtain ⟨h1, h2⟩ := (ih _ _).1 hmem
          refine ⟨List.mem_cons_of_mem _ h1, fun hs => h2 (List.mem_cons_of_mem _ hs)⟩
      · rintro ⟨hmem, hs⟩
        rcases List.mem_cons.1 hmem with rfl | hmem
        · exact List.mem_cons_self _ _
        · by_cases hax : a = x
          · subst hax; exact List.mem_cons_self _ _
          · exact List.mem_cons_of_mem _
              ((ih _ _).2 ⟨hmem, by simp [hax, hs]⟩)

theorem dedupFirstAux_nodup [DecidableEq α] (l : List α) :
    ∀ seen : List α, (dedupFirstAux seen l).Nodup := by
  induction l with
  | nil => intro seen; simp [dedupFirstAux]
  | cons x xs ih =>
    intro seen
    rw [dedupFirstAux]
    by_cases hx : x ∈ seen
    · rw [if_pos hx]; exact ih seen
    · rw [if_neg hx]
      refine List.nodup_cons.2 ⟨fun hmem => ?_, ih _⟩
      exact ((mem_dedupFirstAux _ _ _).1 hmem).2 (List.mem_cons_self _ _)

theorem dedupFirstAux_sublist [DecidableEq α] (l : List α) :
    ∀ seen : List α, List.Sublist (dedupFirstAux seen l) l := by
  induction l with
  | nil => intro seen; simp [dedupFirstAux]
  | cons x xs ih =>
    intro seen
    rw [dedupFirstAux]
    by_cases hx : x ∈ seen
    · rw [if_pos hx]; exact (ih seen).trans (List.sublist_cons_self _ _)
    · rw [if_neg hx]; exact (ih _).cons₂ x

theorem dedupFirstAux_congr [DecidableEq α] (l : List α) :
    ∀ s₁ s₂ : List α, (∀ a, a ∈ s₁ ↔ a ∈ s₂) →
      dedupFirstAux s₁ l = dedupFirstAux s₂ l := by
  induction l with
  | nil => intro s₁ s₂ _; rfl
  | cons x xs ih =>
    intro s₁ s₂ h
    rw [dedupFirstAux, dedupFirstAux]
    by_cases hx : x ∈ s₁
    · rw [if_pos hx, if_pos ((h x).1 hx)]; exact ih _ _ h
    · rw [if_neg hx, if_neg (fun hc => hx ((h x).2 hc))]
      refine congrArg _ (ih _ _ fun a => ?_)
      simp only [List.mem_cons]
      exact or_congr Iff.rfl (h a)

theorem mem_dedupFirst [DecidableEq α] (l : List α) (a : α) :
    a ∈ dedupFirst l ↔ a ∈ l := by
  rw [dedupFirst, mem_dedupFirstAux]; simp

theorem dedupFirst_nodup [DecidableEq α] (l : List α) : (dedupFirst l).Nodup :=
  dedupFirstAux_nodup l []

theorem dedupFirst_sublist [DecidableEq α] (l : List α) : List.Sublist (dedupFirst l) l :=
  dedupFirstAux_sublist l []

/-- The accumulate-if-unseen fold (the `sources` loop of
`retrieve_context`) computes first-occurrence deduplication. -/
theorem foldl_appendUnseen_eq [DecidableEq α] (l : List α) :
    ∀ acc : List α,
      l.foldl (fun acc s => if s ∈ acc then acc else acc ++ [s]) acc =
        acc ++ dedupFirstAux acc l := by
  induction l with
  | nil => intro acc; simp [dedupFirstAux]
  | cons x xs ih =>
    intro acc
    rw [List.foldl_cons, dedupFirstAux]
    by_cases hx : x ∈ acc
    · rw [if_pos hx, if_pos hx]; exact ih acc
    · rw [if_neg hx, if_neg hx, ih (acc ++ [x]),
        dedupFirstAux_congr xs (acc ++ [x]) (x :: acc) (fun a => by
          simp [List.mem_append, List.mem_cons, or_comm])]
      simp

theorem length_insertByScore (x : SearchResult) (l : List SearchResult) :
    (insertByScore x l).length = l.length + 1 := by
  induction l with
  | nil => rfl
  | cons y ys ih =>
    rw [insertByScore]
    by_cases h : x.score < y.score
    · rw [if_pos h]; rfl
    · rw [if_neg h, List.length_cons, ih, List.length_cons]

theorem length_sortByScore (l : List SearchResult) :
    (sortByScore l).length = l.length := by
  induction l with
  | nil => rfl
  | cons x xs ih => rw [sortByScore, length_insertByScore, ih, List.length_cons]

theorem length_similarity_search (corpus : List PolicyChunk)
    (qe : List ℚ) (k : Nat) :
    (similarity_search corpus qe k).length = min k corpus.length := by
  rw [similarity_search]
  by_cases h : corpus.isEmpty
  · rw [if_pos h]
    rw [List.isEmpty_iff] at h
    simp [h]
  · rw [if_neg h]
    rw [List.length_take, length_sortByScore, List.length_map]
    omega

theorem pyMaxBy_eq_none_iff (f : α → Nat) (l : List α) :
    pyMaxBy f l = none ↔ l = [] := by
  cases l <;> simp [pyMaxBy]

theorem pyMaxBy_isSome_iff (f : α → Nat) (l : List α) :
    (∃ y, pyMaxBy f l = some y) ↔ l ≠ [] := by
  cases l <;> simp [pyMaxBy]

theorem promo_lookup_two :
    PROMOTION_REQUIREMENTS.lookup 2 = some ⟨2, 16, "Minimum 16 credits"⟩ := rfl

theorem promo_lookup_four :
    PROMOTION_REQUIREMENTS.lookup 4 =
      some ⟨4, 60, "Including at least 36 credits from first two semesters"⟩ := rfl

theorem promo_lookup_six :
    PROMOTION_REQUIREMENTS.lookup 6 =
      some ⟨6, 108, "Including at least 80 credits from first four semesters"⟩ := rfl

theorem toString_str (s : String) : toString s = s := rfl

theorem toString_sixty : toString (60 : Int) = "60" := by decide

theorem toString_onehundredeight : toString (108 : Int) = "108" := by decide

/-! ### Claim theorems -/

/-- C4: at checkpoint semesters the promotion check passes iff the
semester's credit thresholds hold (sem 2: total ≥ 16; sem 4: total ≥ 60
and sems 1+2 ≥ 36; sem 6: total ≥ 108 and sems 1..4 ≥ 80); when both the
total and the partial-sum condition fail the reason is the total-credit
message; and the two quoted scenarios produce exactly the quoted
strings. -/
theorem claim_C4 :
    (∀ (t : Int) (sw : Int → Int),
        (check_promotion_eligibility 2 t sw).1 = true ↔ 16 ≤ t) ∧
    (∀ (t : Int) (sw : Int → Int),
        (check_promotion_eligibility 4 t sw).1 = true ↔
          60 ≤ t ∧ 36 ≤ sw 1 + sw 2) ∧
    (∀ (t : Int) (sw : Int → Int),
        (check_promotion_eligibility 6 t sw).1 = true ↔
          108 ≤ t ∧ 80 ≤ sw 1 + sw 2 + sw 3 + sw 4) ∧
    (∀ (t : Int) (sw : Int → Int), t < 60 →
        (check_promotion_eligibility 4 t sw).2 =
          "Insufficient credits: " ++ toString t ++ "/60") ∧
    (∀ (t : Int) (sw : Int → Int), t < 108 →
        (check_promotion_eligibility 6 t sw).2 =
          "Insufficient credits: " ++ toString t ++ "/108") ∧
    (check_promotion_eligibility 4 55
        (fun s => if s = 1 then 20 else if s = 2 then 20 else 0) =
      (false, "Insufficient credits: 55/60")) ∧
    (check_promotion_eligibility 4 65
        (fun s => if s = 1 then 15 else if s = 2 then 15 else 0) =
      (false, "Need 36 credits from first two semesters. Current: 30")) := by
  refine ⟨?_, ?_, ?_, ?_, ?_, by decide, by decide⟩
  · intro t sw
    unfold check_promotion_eligibility
    rw [promo_lookup_two]
    by_cases h : t < 16
    · simp [h]
    · simp [h]; omega
  · intro t sw
    unfold check_promotion_eligibility
    rw [promo_lookup_four]
    by_cases h : t < 60
    · simp [h]
    · by_cases h36 : sw 1 + sw 2 < 36
      · simp [h, h36]
      · simp [h, h36]; omega
  · intro t sw
    unfold check_promotion_eligibility
    rw [promo_lookup_six]
    by_cases h : t < 108
    · simp [h]
    · by_cases h80 : sw 1 + sw 2 + sw 3 + sw 4 < 80
      · simp [h, h80]
      · simp [h, h80]; omega
  · intro t sw h
    unfold check_promotion_eligibility
    rw [promo_lookup_four]
    simp [h, String.append_assoc, toString_str, toString_sixty]
  · intro t sw h
    unfold check_promotion_eligibility
    rw [promo_lookup_six]
    simp [h, String.append_assoc, toString_str, toString_onehundredeight]

/-- C4 witness: the general parts of `claim_C4` applied at semester 4
with total credits 50. -/
theorem claim_C4_witness :
    ((check_promotion_eligibility 4 50 (fun _ => 0)).1 = true ↔
      (60:Int) ≤ 50 ∧ (36:Int) ≤ 0 + 0) ∧
    (check_promotion_eligibility 4 50 (fun _ => 0)).2 =
      "Insufficient credits: " ++ toString (50 : Int) ++ "/60" := by
  have h := claim_C4
  exact ⟨h.2.1 50 (fun _ => 0), h.2.2.2.1 50 (fun _ => 0) (by decide)⟩

/-- C5: the advancement check passes iff semester ∈ {5, 6}, cgpa ≥ 7.5 and
no backlogs; each single failing condition forces a negative verdict; the
reason is decided by the first failing condition in the order (semester,
cgpa, backlogs); and the quoted scenario yields the quoted reason. -/
theorem claim_C5 :
    MIN_CGPA_FOR_ADVANCE = 7.5 ∧
    (∀ (cs : Int) (g : ℚ) (hb : Bool),
        (check_advance_eligibility cs g hb).1 = true ↔
          ((cs = 5 ∨ cs = 6) ∧ MIN_CGPA_FOR_ADVANCE ≤ g ∧ hb = false)) ∧
    (∀ (cs : Int) (g : ℚ), cs ∉ ADVANCE_ELIGIBLE_SEMESTERS →
        ∀ hb, (check_advance_eligibility cs g hb).2 =
          "Advancement only for III year students (Sem 5/6)" ∧
          (check_advance_eligibility cs g hb).1 = false) ∧
    (∀ (cs : Int) (g : ℚ), cs ∈ ADVANCE_ELIGIBLE_SEMESTERS →
        g < MIN_CGPA_FOR_ADVANCE →
        ∀ hb, (check_advance_eligibility cs g hb).2 =
          "CGPA must be ≥ " ++ toString MIN_CGPA_FOR_ADVANCE ++
            ". Current: " ++ toString g ∧
          (check_advance_eligibility cs g hb).1 = false) ∧
    (∀ (cs : Int) (g : ℚ), cs ∈ ADVANCE_ELIGIBLE_SEMESTERS →
        MIN_CGPA_FOR_ADVANCE ≤ g →
        check_advance_eligibility cs g true =
          (false, "Cannot advance with pending backlogs")) ∧
    check_advance_eligibility 6 8 true =
      (false, "Cannot advance with pending backlogs") := by
  refine ⟨by norm_num [MIN_CGPA_FOR_ADVANCE, Rat.mkRat_eq_div], ?_, ?_, ?_, ?_, by decide⟩
  · intro cs g hb
    unfold check_advance_eligibility
    by_cases hcs : cs ∈ ADVANCE_ELIGIBLE_SEMESTERS
    · have hcs' : cs = 5 ∨ cs = 6 := by
        simpa [ADVANCE_ELIGIBLE_SEMESTERS] using hcs
      rw [if_neg (not_not_intro hcs)]
      by_cases hg : g < MIN_CGPA_FOR_ADVANCE
      · rw [if_pos hg]
        simp [show ¬ MIN_CGPA_FOR_ADVANCE ≤ g from not_le.mpr hg]
      · rw [if_neg hg]
        cases hb
        · simp [hcs', le_of_not_lt hg]
        · simp
    · rw [if_pos hcs]
      have hcs' : ¬ (cs = 5 ∨ cs = 6) := fun h =>
        hcs (by rcases h with h | h <;> simp [ADVANCE_ELIGIBLE_SEMESTERS, h])
      simp [hcs']
  · intro cs g hcs hb
    unfold check_advance_eligibility
    rw [if_pos hcs]
    exact ⟨rfl, rfl⟩
  · intro cs g hcs hg hb
    unfold check_advance_eligibility
    rw [if_neg (not_not_intro hcs), if_pos hg]
    refine ⟨?_, rfl⟩
    simp [String.append_assoc, toString_str]
  · intro cs g hcs hg
    unfold check_advance_eligibility
    rw [if_neg (not_not_intro hcs), if_neg (not_lt.mpr hg)]
    rfl

/-- C5 witness: `claim_C5` applied at concrete toggles — semester failing
(4, 8, false), cgpa failing (5, 7, false), backlogs failing (6, 8, true). -/
theorem claim_C5_witness :
    ((check_advance_eligibility 4 8 false).2 =
      "Advancement only for III year students (Sem 5/6)" ∧
      (check_advance_eligibility 4 8 false).1 = false) ∧
    ((check_advance_eligibility 5 7 false).1 = false) ∧
    check_advance_eligibility 6 8 true =
      (false, "Cannot advance with pending backlogs") := by
  have h := claim_C5
  refine ⟨h.2.2.1 4 8 (by decide) false, ?_, h.2.2.2.2.1 6 8 (by decide) (by decide)⟩
  exact (h.2.2.2.1 5 7 (by decide) (by decide) false).2

/-- C6: the name-removal risk check returns (CRITICAL, NAME_REMOVAL) for
count ≥ 3, (HIGH, WARNING) for count = 2, (MEDIUM, CAUTION) for count = 1
and (LOW, SAFE) for count = 0. -/
theorem claim_C6 (n : Nat) :
    (n ≥ 3 → (check_name_removal_risk n).1 = "CRITICAL" ∧
      (check_name_removal_risk n).2.1 = "NAME_REMOVAL") ∧
    (n = 2 → (check_name_removal_risk n).1 = "HIGH" ∧
      (check_name_removal_risk n).2.1 = "WARNING") ∧
    (n = 1 → (check_name_removal_risk n).1 = "MEDIUM" ∧
      (check_name_removal_risk n).2.1 = "CAUTION") ∧
    (n = 0 → (check_name_removal_risk n).1 = "LOW" ∧
      (check_name_removal_risk n).2.1 = "SAFE") := by
  refine ⟨fun h => ?_, fun h => ?_, fun h => ?_, fun h => ?_⟩
  · rw [check_name_removal_risk,
      if_pos (show n ≥ MAX_NOT_PROMOTED_COUNT from h)]
    exact ⟨rfl, rfl⟩
  · subst h; decide
  · subst h; decide
  · subst h; decide

/-- C6 witness: `claim_C6` applied at counts 3, 2, 1 and 0. -/
theorem claim_C6_witness :
    ((check_name_removal_risk 3).1 = "CRITICAL" ∧
      (check_name_removal_risk 3).2.1 = "NAME_REMOVAL") ∧
    ((check_name_removal_risk 2).1 = "HIGH" ∧
      (check_name_removal_risk 2).2.1 = "WARNING") ∧
    ((check_name_removal_risk 1).1 = "MEDIUM" ∧
      (check_name_removal_risk 1).2.1 = "CAUTION") ∧
    ((check_name_removal_risk 0).1 = "LOW" ∧
      (check_name_removal_risk 0).2.1 = "SAFE") :=
  ⟨(claim_C6 3).1 (by decide), (claim_C6 2).2.1 rfl,
   (claim_C6 1).2.2.1 rfl, (claim_C6 0).2.2.2 rfl⟩

/-- C7: for every semester outside {2, 4, 6} the promotion check returns
`true` with the not-applicable reason, regardless of credits. -/
theorem claim_C7 (cs : Int) (t : Int) (sw : Int → Int)
    (h : cs ∉ ([2, 4, 6] : List Int)) :
    check_promotion_eligibility cs t sw =
      (true, "Promotion check only at even semesters") := by
  have h2 : ¬ cs = 2 := fun e => h (by simp [e])
  have h4 : ¬ cs = 4 := fun e => h (by simp [e])
  have h6 : ¬ cs = 6 := fun e => h (by simp [e])
  have hlk : PROMOTION_REQUIREMENTS.lookup cs = none := by
    simp [PROMOTION_REQUIREMENTS, List.lookup, beq_eq_false_iff_ne.mpr h2,
      beq_eq_false_iff_ne.mpr h4, beq_eq_false_iff_ne.mpr h6]
  unfold check_promotion_eligibility
  rw [hlk]

/-- C7 witness: `claim_C7` at semester 3 with nonzero credits. -/
theorem claim_C7_witness :
    check_promotion_eligibility 3 200 (fun _ => 50) =
      (true, "Promotion check only at even semesters") :=
  claim_C7 3 200 (fun _ => 50) (by decide)

/-- C9: CGPA calculation ignores pairs whose grade is not among the ten
grades of the table (they contribute to neither the weighted-point
numerator nor the credit denominator), and returns 0 when the
contributing credits total zero instead of dividing by zero. -/
theorem claim_C9 :
    GRADE_POINTS.length = 10 ∧
    (∀ l : List (String × Int),
        cgpaSums l =
          cgpaSums (l.filter (fun gc => (GRADE_POINTS.lookup gc.1).isSome))) ∧
    (∀ l : List (String × Int),
        calculate_cgpa l =
          calculate_cgpa (l.filter (fun gc => (GRADE_POINTS.lookup gc.1).isSome))) ∧
    (∀ l : List (String × Int), (cgpaSums l).2 = 0 → calculate_cgpa l = 0) := by
  have hsums : ∀ (l : List (String × Int)) (acc : Int × Int),
      l.foldl (fun acc gc =>
          match GRADE_POINTS.lookup gc.1 with
          | some p => (acc.1 + (p : Int) * gc.2, acc.2 + gc.2)
          | none => acc) acc =
        (l.filter (fun gc => (GRADE_POINTS.lookup gc.1).isSome)).foldl
          (fun acc gc =>
            match GRADE_POINTS.lookup gc.1 with
            | some p => (acc.1 + (p : Int) * gc.2, acc.2 + gc.2)
            | none => acc) acc := by
    intro l
    induction l with
    | nil => intro acc; rfl
    | cons x xs ih =>
      intro acc
      simp only [List.foldl_cons]
      cases hx : GRADE_POINTS.lookup x.1 with
      | none =>
        rw [List.filter_cons_of_neg (by simp [hx])]
        simp only [hx]
        exact ih acc
      | some p =>
        rw [List.filter_cons_of_pos (by simp [hx])]
        simp only [List.foldl_cons, hx]
        exact ih _
  have h2 : ∀ l : List (String × Int),
      cgpaSums l =
        cgpaSums (l.filter (fun gc => (GRADE_POINTS.lookup gc.1).isSome)) :=
    fun l => hsums l (0, 0)
  refine ⟨rfl, h2, fun l => ?_, fun l h => ?_⟩
  · rw [calculate_cgpa, calculate_cgpa, h2]
  · rw [calculate_cgpa]
    simp [h]

/-- C9 witness: `claim_C9` at a list with the unrecognized grade "X" and
at a list of only unrecognized grades. -/
theorem claim_C9_witness :
    (calculate_cgpa [("A", 4), ("X", 3)] = calculate_cgpa [("A", 4)]) ∧
    (calculate_cgpa [("Q", 5)] = 0) := by
  have h := claim_C9
  exact ⟨h.2.2.1 [("A", 4), ("X", 3)], h.2.2.2 [("Q", 5)] (by decide)⟩

/-- Membership characterization of `get_backlog_courses`: a course id is
reported iff its group of attempts is non-empty and the latest attempt
(maximal `attempt_number`) has `grade ∈ {E, F}` OR `status = FAILED`. -/
theorem mem_get_backlog_courses (records : List AcademicRecord) (cid : Nat) :
    (∃ b ∈ get_backlog_courses records, b.course_id = cid) ↔
      ∃ latest,
        pyMaxBy (·.attempt_number)
            (records.filter (fun r => r.course_id == cid)) = some latest ∧
        (latest.grade = "E" ∨ latest.grade = "F" ∨ latest.status = "FAILED") := by
  constructor
  · rintro ⟨b, hb, hbid⟩
    rw [get_backlog_courses, List.mem_filterMap] at hb
    obtain ⟨k, hk, hfk⟩ := hb
    cases hmax : pyMaxBy (·.attempt_number)
        (records.filter (fun r => r.course_id == k)) with
    | none => cases (by simpa only [hmax] using hfk : (none : Option _) = some _)
    | some latest =>
      simp only [hmax] at hfk
      by_cases hcond : latest.grade = "E" ∨ latest.grade = "F" ∨
          latest.status = "FAILED"
      · rw [if_pos hcond] at hfk
        have hbk : b.course_id = k := by cases hfk; rfl
        have hkc : k = cid := by rw [← hbk, hbid]
        subst hkc
        exact ⟨latest, hmax, hcond⟩
      · rw [if_neg hcond] at hfk; cases hfk
  · rintro ⟨latest, hmax, hcond⟩
    have hne : records.filter (fun r => r.course_id == cid) ≠ [] := by
      intro he
      rw [he] at hmax
      cases hmax
    obtain ⟨r, hr⟩ := List.exists_mem_of_ne_nil _ hne
    have hr' := List.mem_filter.1 hr
    have hcid : cid ∈ dedupFirst (records.map (·.course_id)) := by
      rw [mem_dedupFirst, List.mem_map]
      exact ⟨r, hr'.1, by simpa using hr'.2⟩
    refine ⟨⟨cid, latest.grade, latest.attempt_number,
      latest.attendance_fulfilled⟩, ?_, rfl⟩
    rw [get_backlog_courses, List.mem_filterMap]
    refine ⟨cid, hcid, ?_⟩
    simp only [hmax]
    rw [if_pos hcond]

/-- Membership characterization of `EligibilityAgent._get_backlogs`: a
course id is reported iff its group of attempts is non-empty, the latest
attempt has `grade ∈ {E, F}` AND `status ≠ PASSED`, and the id resolves
in the catalog.  `hid` models the database guarantee that
`query(Course).filter(Course.id == course_id)` returns a course with that
id. -/
theorem mem_agentGetBacklogs (records : List AcademicRecord)
    (courseById : Nat → Option Course)
    (hid : ∀ i c, courseById i = some c → c.id = i) (cid : Nat) :
    (∃ b ∈ agentGetBacklogs records courseById, b.course_id = cid) ↔
      ∃ latest,
        pyMaxBy (·.attempt_number)
            (records.filter (fun r => r.course_id == cid)) = some latest ∧
        ((latest.grade = "E" ∨ latest.grade = "F") ∧ latest.status ≠ "PASSED") ∧
        ∃ c, courseById cid = some c := by
  constructor
  · rintro ⟨b, hb, hbid⟩
    rw [agentGetBacklogs, List.mem_filterMap] at hb
    obtain ⟨k, hk, hfk⟩ := hb
    cases hmax : pyMaxBy (·.attempt_number)
        (records.filter (fun r => r.course_id == k)) with
    | none => cases (by simpa only [hmax] using hfk : (none : Option _) = some _)
    | some latest =>
      simp only [hmax] at hfk
      by_cases hcond : (latest.grade = "E" ∨ latest.grade = "F") ∧
          latest.status ≠ "PASSED"
      · rw [if_pos hcond] at hfk
        cases hcourse : courseById k with
        | none => cases (by simpa only [hcourse] using hfk : (none : Option _) = some _)
        | some course =>
          simp only [hcourse] at hfk
          have hbk : b.course_id = course.id := by cases hfk; rfl
          have hkc : k = cid := by rw [← hid k course hcourse, ← hbk, hbid]
          subst hkc
          exact ⟨latest, hmax, hcond, course, hcourse⟩
      · rw [if_neg hcond] at hfk; cases hfk
  · rintro ⟨latest, hmax, hcond, course, hcourse⟩
    have hne : records.filter (fun r => r.course_id == cid) ≠ [] := by
      intro he
      rw [he] at hmax
      cases hmax
    obtain ⟨r, hr⟩ := List.exists_mem_of_ne_nil _ hne
    have hr' := List.mem_filter.1 hr
    have hcid : cid ∈ dedupFirst (records.map (·.course_id)) := by
      rw [mem_dedupFirst, List.mem_map]
      exact ⟨r, hr'.1, by simpa using hr'.2⟩
    refine ⟨⟨course.id, course.course_code, course.course_name,
      course.credits, course.semester, latest.attempt_number,
      latest.attendance_fulfilled⟩, ?_, hid cid course hcourse⟩
    rw [agentGetBacklogs, List.mem_filterMap]
    refine ⟨cid, hcid, ?_⟩
    simp only [hmax]
    rw [if_pos hcond]
    simp only [hcourse]

/-- C1 counterexample: on the single record (course 1, attempt 1,
grade "D", status "FAILED"), the latest attempt's grade is not in {E, F},
so under the claimed rule course 1 must not be a backlog — yet
`get_backlog_courses` reports it (its test is `grade ∈ {E, F} OR
status = FAILED`, not `grade ∈ {E, F} AND status ≠ PASSED`). -/
theorem claim_C1_counterexample :
    pyMaxBy (·.attempt_number)
        (([⟨1, 1, 1, "D", "FAILED", false⟩] : List AcademicRecord).filter
          (fun r => r.course_id == 1)) =
      some ⟨1, 1, 1, "D", "FAILED", false⟩ ∧
    ¬((("D" : String) = "E" ∨ ("D" : String) = "F") ∧
        ("FAILED" : String) ≠ "PASSED") ∧
    (get_backlog_courses [⟨1, 1, 1, "D", "FAILED", false⟩]).map
        (·.course_id) = [1] := by
  refine ⟨rfl, by decide, rfl⟩

/-- C1 (amended): both extractors group by course id and test the attempt
with maximal attempt number, and no other course appears; but the two
classification rules differ.  The agent's `_get_backlogs` reports a course
iff its latest attempt has grade ∈ {E, F} AND status ≠ PASSED (and the id
resolves in the catalog), as the claim states, while
`business_rules.get_backlog_courses` reports a course iff its latest
attempt has grade ∈ {E, F} OR status = FAILED. -/
theorem claim_C1 (records : List AcademicRecord)
    (courseById : Nat → Option Course)
    (hid : ∀ i c, courseById i = some c → c.id = i) (cid : Nat) :
    ((∃ b ∈ agentGetBacklogs records courseById, b.course_id = cid) ↔
      ∃ latest,
        pyMaxBy (·.attempt_number)
            (records.filter (fun r => r.course_id == cid)) = some latest ∧
        ((latest.grade = "E" ∨ latest.grade = "F") ∧ latest.status ≠ "PASSED") ∧
        ∃ c, courseById cid = some c) ∧
    ((∃ b ∈ get_backlog_courses records, b.course_id = cid) ↔
      ∃ latest,
        pyMaxBy (·.attempt_number)
            (records.filter (fun r => r.course_id == cid)) = some latest ∧
        (latest.grade = "E" ∨ latest.grade = "F" ∨ latest.status = "FAILED")) :=
  ⟨mem_agentGetBacklogs records courseById hid cid,
   mem_get_backlog_courses records cid⟩

/-- C1 witness: `claim_C1` at one failed record for course 1 and a
one-course catalog; both extractors report course 1. -/
theorem claim_C1_witness :
    (∃ b ∈ agentGetBacklogs [⟨1, 3, 2, "F", "FAILED", false⟩]
        (fun i => if i = 1 then
          some ⟨1, "CS101", "Intro", 4, 3, true, false, false⟩ else none),
      b.course_id = 1) ∧
    (∃ b ∈ get_backlog_courses [⟨1, 3, 2, "F", "FAILED", false⟩],
      b.course_id = 1) := by
  have hid : ∀ i c,
      (fun i => if i = 1 then
        some (⟨1, "CS101", "Intro", 4, 3, true, false, false⟩ : Course)
      else none) i = some c → c.id = i := by
    intro i c h
    by_cases hi : i = 1
    · subst hi
      simp at h
      rw [← h]
    · simp [hi] at h
  have h := claim_C1 [⟨1, 3, 2, "F", "FAILED", false⟩]
    (fun i => if i = 1 then
      some ⟨1, "CS101", "Intro", 4, 3, true, false, false⟩ else none) hid 1
  constructor
  · exact h.1.2 ⟨⟨1, 3, 2, "F", "FAILED", false⟩, by decide,
      ⟨by decide, by decide⟩, ⟨1, "CS101", "Intro", 4, 3, true, false, false⟩,
      by decide⟩
  · exact h.2.2 ⟨⟨1, 3, 2, "F", "FAILED", false⟩, by decide, by decide⟩

/-- C2: in every verdict, CURRENT is allowed iff the risk level is not
CRITICAL, BACKLOG iff the backlog list is non-empty, ADVANCE iff the
advancement check passes; status is BLOCKED iff the risk level is
CRITICAL and ELIGIBLE otherwise; the warnings list is exactly the risk
message (iff risk ≠ LOW) followed by the backlog-count message (iff
backlogs exist); and `not_promoted_count ≥ 3` forces CRITICAL with
CURRENT excluded. -/
theorem claim_C2 (student : Student) (records : List AcademicRecord)
    (courseById : Nat → Option Course) :
    ("CURRENT" ∈ (analyze_eligibility student records courseById).allowed_registration_types ↔
      (analyze_eligibility student records courseById).risk_level ≠ "CRITICAL") ∧
    ("BACKLOG" ∈ (analyze_eligibility student records courseById).allowed_registration_types ↔
      (analyze_eligibility student records courseById).backlog_courses ≠ []) ∧
    ("ADVANCE" ∈ (analyze_eligibility student records courseById).allowed_registration_types ↔
      (check_advance_eligibility student.current_semester student.cgpa
        (analyze_eligibility student records courseById).has_backlogs).1 = true) ∧
    ((analyze_eligibility student records courseById).status = "BLOCKED" ↔
      (analyze_eligibility student records courseById).risk_level = "CRITICAL") ∧
    ((analyze_eligibility student records courseById).risk_level ≠ "CRITICAL" →
      (analyze_eligibility student records courseById).status = "ELIGIBLE") ∧
    ((analyze_eligibility student records courseById).warnings =
      (if (analyze_eligibility student records courseById).risk_level ≠ "LOW" then
        [(check_name_removal_risk student.not_promoted_count).2.2] else []) ++
      (if (analyze_eligibility student records courseById).backlog_courses ≠ [] then
        ["You have " ++
          toString (analyze_eligibility student records courseById).backlog_count ++
          " backlog course(s)"] else [])) ∧
    (student.not_promoted_count ≥ 3 →
      (analyze_eligibility student records courseById).risk_level = "CRITICAL" ∧
      "CURRENT" ∉ (analyze_eligibility student records courseById).allowed_registration_types) := by
  simp only [analyze_eligibility]
  by_cases hc : (check_name_removal_risk student.not_promoted_count).1 = "CRITICAL" <;>
    by_cases hb : agentGetBacklogs records courseById = [] <;>
      by_cases ha : (check_advance_eligibility student.current_semester student.cgpa
        (!(agentGetBacklogs records courseById).isEmpty)).1 = true <;>
    by_cases hl : (check_name_removal_risk student.not_promoted_count).1 = "LOW" <;>
    refine ⟨?_, ?_, ?_, ?_, ?_, ?_, fun h3 => ?_⟩ <;>
    simp [hc, hb, ha, hl, List.isEmpty_iff, String.append_assoc, toString_str] <;>
    exact hc (by rw [check_name_removal_risk,
      if_pos (show student.not_promoted_count ≥ MAX_NOT_PROMOTED_COUNT from h3)])

/-- C2 witness: `claim_C2` for a student with `not_promoted_count = 3`,
no records and an empty catalog. -/
theorem claim_C2_witness :
    (analyze_eligibility ⟨7, 3, 8, 30, 3⟩ [] (fun _ => none)).risk_level =
      "CRITICAL" ∧
    "CURRENT" ∉ (analyze_eligibility ⟨7, 3, 8, 30, 3⟩ []
      (fun _ => none)).allowed_registration_types ∧
    (analyze_eligibility ⟨7, 3, 8, 30, 3⟩ [] (fun _ => none)).status =
      "BLOCKED" := by
  have h := claim_C2 ⟨7, 3, 8, 30, 3⟩ [] (fun _ => none)
  obtain ⟨hrisk, hcur⟩ := h.2.2.2.2.2.2 (by decide)
  exact ⟨hrisk, hcur, h.2.2.2.1.2 hrisk⟩

/-- C3: the allocator's `current` bucket is the catalog courses of the
student's semester, forced empty when the risk level is CRITICAL; the
`advance` bucket is the next semester's catalog courses when advancement
passed and empty otherwise; and the reported `total_credits` is the
credit sum over the `current` bucket only (hence 0 when CRITICAL). -/
theorem claim_C3 (student_id : Nat) (eligibility : EligibilityResult)
    (catalog : List Course) :
    ((recommend_courses student_id eligibility catalog).total_credits =
      (((recommend_courses student_id eligibility catalog).courses_current).map
        (·.credits)).sum) ∧
    (eligibility.risk_level = "CRITICAL" →
      (recommend_courses student_id eligibility catalog).courses_current = [] ∧
      (recommend_courses student_id eligibility catalog).total_credits = 0) ∧
    (eligibility.risk_level ≠ "CRITICAL" →
      (recommend_courses student_id eligibility catalog).courses_current =
        (catalog.filter
          (fun c => c.semester == eligibility.current_semester)).map
          course_to_dict) ∧
    (eligibility.can_advance = true →
      (recommend_courses student_id eligibility catalog).courses_advance =
        (catalog.filter
          (fun c => c.semester == eligibility.current_semester + 1)).map
          course_to_dict) ∧
    (eligibility.can_advance = false →
      (recommend_courses student_id eligibility catalog).courses_advance = []) := by
  by_cases hc : eligibility.risk_level = "CRITICAL" <;>
    cases hca : eligibility.can_advance <;>
    simp [recommend_courses, coursesBySemester, hc, hca, Function.comp,
      course_to_dict] <;> rfl

/-- C3 witness: `claim_C3` for a CRITICAL verdict over a one-course
catalog of the student's semester — the current bucket is emptied and the
total is 0. -/
theorem claim_C3_witness :
    (recommend_courses 1
      ⟨1, 3, 8, 30, 3, "BLOCKED", false, false, false, 0, [], [], "CRITICAL",
        [], none⟩
      [⟨1, "CS101", "Intro", 4, 3, true, false, false⟩]).courses_current = [] ∧
    (recommend_courses 1
      ⟨1, 3, 8, 30, 3, "BLOCKED", false, false, false, 0, [], [], "CRITICAL",
        [], none⟩
      [⟨1, "CS101", "Intro", 4, 3, true, false, false⟩]).total_credits = 0 := by
  exact (claim_C3 1
    ⟨1, 3, 8, 30, 3, "BLOCKED", false, false, false, 0, [], [], "CRITICAL",
      [], none⟩
    [⟨1, "CS101", "Intro", 4, 3, true, false, false⟩]).2.1 rfl

/-- C8: retrieval on an empty corpus returns the "no information found"
sentinel with empty sources and chunks instead of failing; the number of
search hits is always clamped to the corpus size, so with `top_k` at
least the corpus size the number of returned chunks equals the corpus
size. -/
theorem claim_C8 :
    (∀ (query : String) (qe : List ℚ) (k : Nat),
        retrieve_context [] query qe k =
          ⟨"No relevant ordinance information found.", [], [], none⟩) ∧
    (∀ (corpus : List PolicyChunk) (qe : List ℚ) (k : Nat),
        (similarity_search corpus qe k).length = min k corpus.length) ∧
    (∀ (corpus : List PolicyChunk) (query : String) (qe : List ℚ) (k : Nat),
        corpus ≠ [] → corpus.length ≤ k →
        (retrieve_context corpus query qe k).chunks.length = corpus.length) := by
  refine ⟨fun query qe k => rfl, length_similarity_search, ?_⟩
  intro corpus query qe k hne hk
  have hlen := length_similarity_search corpus qe k
  have hpos : 0 < corpus.length := List.length_pos.2 hne
  have hres : similarity_search corpus qe k ≠ [] := by
    intro h
    rw [h] at hlen
    simp at hlen
    omega
  simp only [retrieve_context]
  rw [if_neg (fun hcond => hres (List.isEmpty_iff.1 hcond))]
  rw [List.length_map, hlen]
  omega

/-- C8 witness: `claim_C8` on the empty corpus and on a one-chunk corpus
with `top_k = 3`. -/
theorem claim_C8_witness :
    retrieve_context [] "promotion rules" [] 3 =
      ⟨"No relevant ordinance information found.", [], [], none⟩ ∧
    (retrieve_context [⟨"clause", [], []⟩] "promotion rules" [] 3).chunks.length
      = 1 := by
  have h := claim_C8
  exact ⟨h.1 "promotion rules" [] 3,
    h.2.2 [⟨"clause", [], []⟩] "promotion rules" [] 3 (by decide) (by decide)⟩

/-- The `sources` accumulation loop of `retrieve_context` computes the
first-occurrence deduplication of the chunk source labels. -/
theorem sources_foldl_eq (results : List SearchResult) : ∀ acc,
    results.foldl (fun acc r =>
      let source_info := getSource r.metadata
      if source_info ∈ acc then acc else acc ++ [source_info]) acc =
      acc ++ dedupFirstAux acc (results.map (fun r => getSource r.metadata)) := by
  induction results with
  | nil => intro acc; simp [dedupFirstAux]
  | cons x xs ih =>
    intro acc
    simp only [List.foldl_cons, List.map_cons, dedupFirstAux]
    by_cases hx : getSource x.metadata ∈ acc
    · rw [if_pos hx, if_pos hx]
      exact ih acc
    · rw [if_neg hx, if_neg hx, ih (acc ++ [getSource x.metadata]),
        dedupFirstAux_congr (xs.map (fun r => getSource r.metadata))
          (acc ++ [getSource x.metadata]) (getSource x.metadata :: acc)
          (fun a => by simp [List.mem_append, List.mem_cons, or_comm])]
      simp

/-- C10: the sources list of a retrieval result is the first-occurrence
deduplication of the source labels of the ranked chunks — each label at
most once (`Nodup`), in chunk order (a sublist of the label sequence) —
and it can be strictly shorter than the chunks list, as on a two-chunk
corpus with a shared source label. -/
theorem claim_C10 :
    (∀ (corpus : List PolicyChunk) (query : String) (qe : List ℚ) (k : Nat),
        (retrieve_context corpus query qe k).sources =
          dedupFirst ((retrieve_context corpus query qe k).chunks.map
            (fun c => getSource c.metadata)) ∧
        ((retrieve_context corpus query qe k).sources).Nodup ∧
        List.Sublist ((retrieve_context corpus query qe k).sources)
          ((retrieve_context corpus query qe k).chunks.map
            (fun c => getSource c.metadata))) ∧
    ((retrieve_context
        [⟨"t1", [("source", "AMU Ordinances 2023")], []⟩,
         ⟨"t2", [("source", "AMU Ordinances 2023")], []⟩]
        "q" [] 3).chunks.length = 2 ∧
     (retrieve_context
        [⟨"t1", [("source", "AMU Ordinances 2023")], []⟩,
         ⟨"t2", [("source", "AMU Ordinances 2023")], []⟩]
        "q" [] 3).sources.length = 1) := by
  constructor
  · intro corpus query qe k
    simp only [retrieve_context]
    by_cases h : (similarity_search corpus qe k).isEmpty
    · rw [if_pos h]
      exact ⟨rfl, List.nodup_nil, List.nil_sublist _⟩
    · rw [if_neg h]
      have hsrc :
          (similarity_search corpus qe k).foldl
            (fun acc r =>
              let source_info := getSource r.metadata
              if source_info ∈ acc then acc else acc ++ [source_info]) [] =
          dedupFirst (((similarity_search corpus qe k).map
            (fun r => (⟨r.text, r.metadata, r.score⟩ : SearchResult))).map
              (fun c => getSource c.metadata)) := by
        rw [sources_foldl_eq, List.map_map, List.nil_append]
        rfl
      refine ⟨hsrc, ?_, ?_⟩
      · rw [hsrc]
        exact dedupFirst_nodup _
      · rw [hsrc]
        exact dedupFirst_sublist _
  · exact ⟨rfl, rfl⟩

end CollegeReg
